import Mathlib

/-!
Verification of the core pipeline control plane of a confidential-ML
inference system (orchestrator, stage runtime, scheduler, wire protocol,
manifest).  Rust sources are shallowly embedded as Lean functions:
machine integers become `Nat` (none of the embedded arithmetic can
overflow a `u64`/`usize` on the inputs the theorems quantify over),
fallible code returns `Except`, and stateful loops become explicit
recursion over the message queues they consume.
-/

namespace Pipeline

/-! ### Errors (src/error.rs) -/

/-- Errors arising from manifest parsing and validation
(`ManifestError` in src/error.rs).  The `Json` payload models the
display of the wrapped serde error. -/
inductive ManifestError where
  | NonContiguousLayers (stage_idx e next_start : Nat)
  | EmptyStages
  | InvalidLayerRange (stage_idx start e : Nat)
  | LayerCountMismatch (covered total : Nat)
  | LayerStartNotZero (start : Nat)
  | WrongStageIndex (stage_idx actual : Nat)
  | Json (msg : String)
deriving DecidableEq

/-- Errors from the scheduler (`SchedulerError` in src/error.rs). -/
inductive SchedulerError where
  | ZeroStages
  | ZeroMicroBatches
deriving DecidableEq

/-- Errors from a pipeline stage (`StageError` in src/error.rs). -/
inductive StageError where
  | InitFailed (msg : String)
  | ForwardFailed (request_id micro_batch : Nat) (reason : String)
  | UnexpectedMessage (msg : String)
  | Transport (msg : String)
  | ChannelClosed
  | Protocol (msg : String)
deriving DecidableEq

/-- Top-level pipeline error (`PipelineError` in src/error.rs). -/
inductive PipelineError where
  | Manifest (e : ManifestError)
  | Scheduler (e : SchedulerError)
  | Stage (e : StageError)
  | Transport (msg : String)
  | StageFailed (stage_idx : Nat) (reason : String)
  | RequestFailed (request_id : Nat) (reason : String)
  | Shutdown
  | Io (msg : String)
  | Timeout (msg : String)
  | Tainted
  | Protocol (msg : String)
  | Serialization (msg : String)
deriving DecidableEq

/-! ### Scheduler (src/scheduler.rs) -/

/-- An operation in the pipeline schedule for a single time step
(`PipeOp` in src/scheduler.rs). -/
inductive PipeOp where
  | RecvActivation (micro_batch : Nat)
  | Forward (micro_batch : Nat)
  | SendActivation (micro_batch : Nat)
  | Idle
deriving DecidableEq

/-- The schedule for a single stage (`StageSchedule` in src/scheduler.rs). -/
structure StageSchedule where
  stage_idx : Nat
  ops : List (List PipeOp)
deriving DecidableEq

/-- Forward-only inference schedule (`InferenceSchedule` in src/scheduler.rs). -/
structure InferenceSchedule where
  num_stages : Nat
  num_micro_batches : Nat
  total_steps : Nat
  stage_schedules : List StageSchedule
deriving DecidableEq

/-- `InferenceSchedule::generate` (src/scheduler.rs:42-90).  The step
condition `t >= s && (t - s) < m` is kept verbatim; Rust `usize`
subtraction never underflows there because `t >= s` is checked first,
matching truncated `Nat` subtraction. -/
def InferenceSchedule.generate (num_stages num_micro_batches : Nat) :
    Except SchedulerError InferenceSchedule :=
  if num_stages = 0 then .error .ZeroStages
  else if num_micro_batches = 0 then .error .ZeroMicroBatches
  else
    let p := num_stages
    let m := num_micro_batches
    let total_steps := m + p - 1
    let stage_schedules := (List.range p).map fun s =>
      { stage_idx := s
        ops := (List.range total_steps).map fun t =>
          if s ≤ t ∧ t - s < m then
            (if s ≠ 0 then [PipeOp.RecvActivation (t - s)] else []) ++
              [PipeOp.Forward (t - s)] ++
              (if s ≠ p - 1 then [PipeOp.SendActivation (t - s)] else [])
          else [PipeOp.Idle] }
    .ok { num_stages := num_stages, num_micro_batches := num_micro_batches
          total_steps := total_steps, stage_schedules := stage_schedules }

/-- The op list of stage `s` at step `t`, through the list accessors
(`schedule.stage_schedules[s].ops[t]`). -/
def InferenceSchedule.opsAt (sched : InferenceSchedule) (s t : Nat) :
    Option (List PipeOp) :=
  sched.stage_schedules[s]?.bind fun ss => ss.ops[t]?

/-- The per-step op list as the spec describes it (§4.3): at step `t`,
stage `s` emits Recv/Forward/Send for micro-batch `t - s` when
`s ≤ t < s + m` (no Recv for stage 0, no Send for the last stage),
otherwise a single Idle. -/
def claimStepOps (p m s t : Nat) : List PipeOp :=
  if s ≤ t ∧ t < s + m then
    (if s = 0 then [] else [PipeOp.RecvActivation (t - s)]) ++
      [PipeOp.Forward (t - s)] ++
      (if s = p - 1 then [] else [PipeOp.SendActivation (t - s)])
  else [PipeOp.Idle]

/-- C1: for every `num_stages p ≥ 1` and `num_micro_batches m ≥ 1`,
`InferenceSchedule::generate(p, m)` returns `Ok` with
`total_steps = m + p - 1`, one schedule per stage, and for every stage
`s` and step `t` the op list is Recv (unless `s = 0`) / Forward / Send
(unless `s = p - 1`) on micro-batch `t - s` when `s ≤ t < s + m`, and
`[Idle]` otherwise; `generate(0, m)` is the `ZeroStages` error and
`generate(p, 0)` (for `p ≥ 1`) the `ZeroMicroBatches` error. -/
theorem scheduler_generate_correct :
    (∀ p m, 1 ≤ p → 1 ≤ m →
      ∃ sched, InferenceSchedule.generate p m = .ok sched ∧
        sched.total_steps = m + p - 1 ∧
        sched.stage_schedules.length = p ∧
        (∀ s, s < p → ∀ t, t < m + p - 1 →
          sched.opsAt s t = some (claimStepOps p m s t))) ∧
    (∀ m, InferenceSchedule.generate 0 m = .error .ZeroStages) ∧
    (∀ p, 1 ≤ p → InferenceSchedule.generate p 0 = .error .ZeroMicroBatches) := by
  refine ⟨?_, ?_, ?_⟩
  · intro p m hp hm
    have hp0 : ¬ p = 0 := by omega
    have hm0 : ¬ m = 0 := by omega
    unfold InferenceSchedule.generate
    rw [if_neg hp0, if_neg hm0]
    refine ⟨_, rfl, rfl, by simp, ?_⟩
    intro s hs t ht
    unfold InferenceSchedule.opsAt
    simp only [List.getElem?_map, List.getElem?_range hs, Option.map, Option.bind,
      List.getElem?_range ht]
    congr 1
    unfold claimStepOps
    by_cases hc : s ≤ t ∧ t - s < m
    · have hc2 : s ≤ t ∧ t < s + m := ⟨hc.1, by omega⟩
      rw [if_pos hc, if_pos hc2]
      by_cases h0 : s = 0 <;> by_cases hl : s = p - 1 <;> simp [h0, hl]
    · have hc2 : ¬ (s ≤ t ∧ t < s + m) := by omega
      rw [if_neg hc, if_neg hc2]
  · intro m
    unfold InferenceSchedule.generate
    rw [if_pos rfl]
  · intro p hp
    unfold InferenceSchedule.generate
    rw [if_neg (by omega), if_pos rfl]

/-- Witness for C1 at concrete inputs `p = 2`, `m = 2`, `p = 0`, `m = 0`. -/
theorem scheduler_generate_correct_witness :
    (∃ sched, InferenceSchedule.generate 2 2 = .ok sched ∧
      sched.total_steps = 2 + 2 - 1 ∧
      sched.stage_schedules.length = 2 ∧
      (∀ s, s < 2 → ∀ t, t < 2 + 2 - 1 →
        sched.opsAt s t = some (claimStepOps 2 2 s t))) ∧
    InferenceSchedule.generate 0 4 = .error .ZeroStages ∧
    InferenceSchedule.generate 3 0 = .error .ZeroMicroBatches :=
  ⟨scheduler_generate_correct.1 2 2 (by decide) (by decide),
   scheduler_generate_correct.2.1 4,
   scheduler_generate_correct.2.2 3 (by decide)⟩

/-! ### Manifest (src/manifest.rs) -/

/-- Transport-level address for a port (`PortSpec` in src/manifest.rs). -/
inductive PortSpec where
  | Tcp (addr : String)
  | VSock (cid port : Nat)
deriving DecidableEq

/-- Network endpoints for a stage (`StageEndpoint` in src/manifest.rs). -/
structure StageEndpoint where
  control : PortSpec
  data_in : PortSpec
  data_out : PortSpec
deriving DecidableEq

/-- Data type for inter-stage activation tensors (`ActivationDType`). -/
inductive ActivationDType where
  | F32
  | F16
  | BF16
deriving DecidableEq

/-- Activation tensor format (`ActivationSpec` in src/manifest.rs). -/
structure ActivationSpec where
  dtype : ActivationDType
  hidden_dim : Nat
  max_seq_len : Nat
deriving DecidableEq

/-- Specification for a single pipeline stage (`StageSpec` in
src/manifest.rs).  The `BTreeMap<usize, String>` of expected
measurements is modelled as an association list in key order. -/
structure StageSpec where
  stage_idx : Nat
  layer_start : Nat
  layer_end : Nat
  weight_hashes : List String
  expected_measurements : List (Nat × String)
  endpoint : StageEndpoint
deriving DecidableEq

/-- Model-sharding descriptor (`ShardManifest` in src/manifest.rs). -/
structure ShardManifest where
  model_name : String
  model_version : String
  total_layers : Nat
  stages : List StageSpec
  activation_spec : ActivationSpec
deriving DecidableEq

/-- Placeholder stage used only by total list accessors (`headD` /
`getLastD`); every use below is guarded by non-emptiness. -/
def dummyStage : StageSpec :=
  { stage_idx := 0, layer_start := 0, layer_end := 0, weight_hashes := []
    expected_measurements := []
    endpoint := { control := .Tcp "", data_in := .Tcp "", data_out := .Tcp "" } }

/-- The first validation loop of `ShardManifest::validate`
(src/manifest.rs:86-100): per-stage index and layer-range checks, in
list order, `i` being the running position. -/
def checkStages : List StageSpec → Nat → Except ManifestError Unit
  | [], _ => .ok ()
  | s :: rest, i =>
    if s.stage_idx ≠ i then .error (.WrongStageIndex i s.stage_idx)
    else if s.layer_end ≤ s.layer_start then
      .error (.InvalidLayerRange i s.layer_start s.layer_end)
    else checkStages rest (i + 1)

/-- The contiguity loop of `ShardManifest::validate`
(src/manifest.rs:103-113): adjacent stages must tile. -/
def checkContig : List StageSpec → Nat → Except ManifestError Unit
  | a :: b :: rest, i =>
    if a.layer_end ≠ b.layer_start then
      .error (.NonContiguousLayers i a.layer_end b.layer_start)
    else checkContig (b :: rest) (i + 1)
  | _, _ => .ok ()

/-- `ShardManifest::validate` (src/manifest.rs:81-132). -/
def ShardManifest.validate (man : ShardManifest) : Except ManifestError Unit :=
  if man.stages.isEmpty then .error .EmptyStages
  else do
    checkStages man.stages 0
    checkContig man.stages 0
    if (man.stages.headD dummyStage).layer_start ≠ 0 then
      .error (.LayerStartNotZero (man.stages.headD dummyStage).layer_start)
    else if (man.stages.getLastD dummyStage).layer_end ≠ man.total_layers then
      .error (.LayerCountMismatch (man.stages.getLastD dummyStage).layer_end
        man.total_layers)
    else .ok ()

/-- The manifest invariants as the spec words them (§3): stages
non-empty; indices equal positions; `layer_start < layer_end`
per stage; stage 0 starts at layer 0; adjacent stages contiguous;
last stage ends at `total_layers`. -/
def manifestInvariants (man : ShardManifest) : Prop :=
  man.stages ≠ [] ∧
  (∀ i (h : i < man.stages.length), (man.stages.get ⟨i, h⟩).stage_idx = i) ∧
  (∀ i (h : i < man.stages.length),
    (man.stages.get ⟨i, h⟩).layer_start < (man.stages.get ⟨i, h⟩).layer_end) ∧
  (man.stages.headD dummyStage).layer_start = 0 ∧
  (∀ i (h : i + 1 < man.stages.length),
    (man.stages.get ⟨i, by omega⟩).layer_end =
      (man.stages.get ⟨i + 1, h⟩).layer_start) ∧
  (man.stages.getLastD dummyStage).layer_end = man.total_layers

/-- Inverting a `do`-bind on `Except` at a `Unit` first component. -/
theorem exceptBindUnit_ok {ε β : Type _} (x : Except ε Unit) (f : Unit → Except ε β)
    (b : β) : (x >>= f) = .ok b ↔ x = .ok () ∧ f () = .ok b := by
  cases x with
  | error e => simp [Bind.bind, Except.bind]
  | ok a => cases a; simp [Bind.bind, Except.bind]

/-- The first validation loop succeeds iff every stage at position `j`
has `stage_idx = i + j` and a non-degenerate layer range. -/
theorem checkStages_ok_iff (l : List StageSpec) (i : Nat) :
    checkStages l i = .ok () ↔
      ∀ j (h : j < l.length), (l.get ⟨j, h⟩).stage_idx = i + j ∧
        (l.get ⟨j, h⟩).layer_start < (l.get ⟨j, h⟩).layer_end := by
  induction l generalizing i with
  | nil => simp [checkStages]
  | cons s rest ih =>
    unfold checkStages
    by_cases hidx : s.stage_idx = i
    · rw [if_neg (by omega)]
      by_cases hrange : s.layer_end ≤ s.layer_start
      · rw [if_pos hrange]
        constructor
        · intro h; exact absurd h (by simp)
        · intro h
          have h0 := (h 0 (by simp)).2
          simp at h0
          omega
      · rw [if_neg hrange, ih (i + 1)]
        constructor
        · intro h j hj
          cases j with
          | zero => simp [hidx]; omega
          | succ j =>
            have hrec := h j (by simpa using hj)
            simp only [List.get_cons_succ] at hrec ⊢
            exact ⟨by omega, hrec.2⟩
        · intro h j hj
          have hrec := h (j + 1) (by simpa using hj)
          simp only [List.get_cons_succ] at hrec ⊢
          exact ⟨by omega, hrec.2⟩
    · rw [if_pos (by omega)]
      constructor
      · intro h; exact absurd h (by simp)
      · intro h
        have h0 := (h 0 (by simp)).1
        simp at h0
        omega

/-- The contiguity loop succeeds iff adjacent stages tile. -/
theorem checkContig_ok_iff (l : List StageSpec) (i : Nat) :
    checkContig l i = .ok () ↔
      ∀ j (h : j + 1 < l.length),
        (l.get ⟨j, by omega⟩).layer_end = (l.get ⟨j + 1, h⟩).layer_start := by
  induction l generalizing i with
  | nil => simp [checkContig]
  | cons a rest ih =>
    cases rest with
    | nil => simp [checkContig]
    | cons b rest2 =>
      unfold checkContig
      by_cases hc : a.layer_end = b.layer_start
      · rw [if_neg (by omega), ih (i + 1)]
        constructor
        · intro h j hj
          cases j with
          | zero => simpa using hc
          | succ j =>
            have hrec := h j (by simpa using hj)
            simpa using hrec
        · intro h j hj
          have hrec := h (j + 1) (by simpa using hj)
          simpa using hrec
      · rw [if_pos (by omega)]
        constructor
        · intro h; exact absurd h (by simp)
        · intro h
          have h0 := h 0 (by simp)
          simp at h0
          exact absurd h0 hc

/-- C2: `ShardManifest::validate` returns `Ok` iff the stages are
non-empty, correctly indexed, with valid contiguous layer ranges
starting at 0 and ending at `total_layers` (the invariants exactly as
the spec states them). -/
theorem manifest_validate_iff_invariants (man : ShardManifest) :
    man.validate = .ok () ↔ manifestInvariants man := by
  unfold ShardManifest.validate manifestInvariants
  by_cases hemp : man.stages.isEmpty
  · rw [if_pos hemp]
    have hnil : man.stages = [] := by simpa [List.isEmpty_iff] using hemp
    simp [hnil]
  · rw [if_neg hemp]
    have hne : man.stages ≠ [] := by simpa [List.isEmpty_iff] using hemp
    simp only [exceptBindUnit_ok]
    rw [checkStages_ok_iff, checkContig_ok_iff]
    constructor
    · rintro ⟨hidx, hcontig, htail⟩
      have htail2 : (man.stages.headD dummyStage).layer_start = 0 ∧
          (man.stages.getLastD dummyStage).layer_end = man.total_layers := by
        by_cases h1 : (man.stages.headD dummyStage).layer_start = 0
        · by_cases h2 :
              (man.stages.getLastD dummyStage).layer_end = man.total_layers
          · exact ⟨h1, h2⟩
          · rw [if_neg (by omega), if_pos (by omega)] at htail
            exact absurd htail (by simp)
        · rw [if_pos (by omega)] at htail
          exact absurd htail (by simp)
      refine ⟨hne, ?_, ?_, htail2.1, hcontig, htail2.2⟩
      · intro j h; simpa using (hidx j h).1
      · intro j h; exact (hidx j h).2
    · rintro ⟨-, hidx, hrange, hhead, hcontig, hlast⟩
      refine ⟨?_, hcontig, ?_⟩
      · intro j h; exact ⟨by simpa using hidx j h, hrange j h⟩
      · rw [if_neg (by omega), if_neg (by omega)]

/-- Witness for C2 at a concrete valid two-stage manifest. -/
theorem manifest_validate_iff_witness :
    manifestInvariants
      { model_name := "m", model_version := "1", total_layers := 4
        stages :=
          [{ stage_idx := 0, layer_start := 0, layer_end := 2
             weight_hashes := [], expected_measurements := []
             endpoint := { control := .Tcp "a", data_in := .Tcp "b"
                           data_out := .Tcp "c" } },
           { stage_idx := 1, layer_start := 2, layer_end := 4
             weight_hashes := [], expected_measurements := []
             endpoint := { control := .Tcp "d", data_in := .Tcp "e"
                           data_out := .Tcp "f" } }]
        activation_spec := { dtype := .F32, hidden_dim := 8, max_seq_len := 16 } } :=
  (manifest_validate_iff_invariants _).mp rfl

/-! ### Wire protocol (src/protocol.rs)

`to_bytes` is `serde_json::to_vec` of an internally-tagged enum
(`#[serde(tag = "type")]`), `from_bytes` is `serde_json::from_slice`.
We embed the wire format at the level of the JSON value the bytes
render: the tag field first, then the variant's fields in declaration
order.  Rendering a JSON value to bytes is injective and deterministic,
so round-trip and determinism of the byte level are decided here. -/

/-- A JSON value, as produced/consumed by serde_json for the control
messages and the manifest. -/
inductive JVal where
  | str (s : String)
  | num (n : Nat)
  | bool (b : Bool)
  | arr (xs : List JVal)
  | obj (fields : List (String × JVal))

/-- First field with the given name, as serde looks fields up. -/
def getField : List (String × JVal) → String → Option JVal
  | [], _ => none
  | (k, v) :: rest, key => if k = key then some v else getField rest key

/-- Messages orchestrator → stage (`OrchestratorMsg` in src/protocol.rs). -/
inductive OrchestratorMsg where
  | Init (stage_spec_json activation_spec_json : String) (num_stages : Nat)
  | EstablishDataChannels (has_upstream has_downstream : Bool)
  | StartRequest (request_id num_micro_batches seq_len : Nat)
  | AbortRequest (request_id : Nat) (reason : String)
  | Shutdown
  | Ping (seq : Nat)
deriving DecidableEq

/-- Messages stage → orchestrator (`StageMsg` in src/protocol.rs). -/
inductive StageMsg where
  | Ready (stage_idx : Nat)
  | DataChannelsReady (stage_idx : Nat)
  | RequestDone (request_id : Nat)
  | RequestError (request_id : Nat) (error : String)
  | Pong (seq : Nat)
  | ShuttingDown (stage_idx : Nat)
deriving DecidableEq

/-- `OrchestratorMsg::to_bytes`, at the JSON-value level: the
internally-tagged serde encoding, tag `"type"` first then the fields in
declaration order. -/
def OrchestratorMsg.toJsonVal : OrchestratorMsg → JVal
  | .Init a b n => .obj [("type", .str "Init"), ("stage_spec_json", .str a),
      ("activation_spec_json", .str b), ("num_stages", .num n)]
  | .EstablishDataChannels u d => .obj [("type", .str "EstablishDataChannels"),
      ("has_upstream", .bool u), ("has_downstream", .bool d)]
  | .StartRequest rid mb sl => .obj [("type", .str "StartRequest"),
      ("request_id", .num rid), ("num_micro_batches", .num mb),
      ("seq_len", .num sl)]
  | .AbortRequest rid reason => .obj [("type", .str "AbortRequest"),
      ("request_id", .num rid), ("reason", .str reason)]
  | .Shutdown => .obj [("type", .str "Shutdown")]
  | .Ping seq => .obj [("type", .str "Ping"), ("seq", .num seq)]

/-- `OrchestratorMsg::from_bytes`, at the JSON-value level: serde
dispatches on the `"type"` tag, errors on an unknown tag, a missing or
ill-typed field, or a non-object document. -/
def OrchestratorMsg.fromJsonVal (j : JVal) : Except String OrchestratorMsg :=
  match j with
  | .obj fields =>
    match getField fields "type" with
    | some (.str "Init") =>
      match getField fields "stage_spec_json",
          getField fields "activation_spec_json",
          getField fields "num_stages" with
      | some (.str a), some (.str b), some (.num n) => .ok (.Init a b n)
      | _, _, _ => .error "invalid fields for Init"
    | some (.str "EstablishDataChannels") =>
      match getField fields "has_upstream", getField fields "has_downstream" with
      | some (.bool u), some (.bool d) => .ok (.EstablishDataChannels u d)
      | _, _ => .error "invalid fields for EstablishDataChannels"
    | some (.str "StartRequest") =>
      match getField fields "request_id", getField fields "num_micro_batches",
          getField fields "seq_len" with
      | some (.num rid), some (.num mb), some (.num sl) =>
        .ok (.StartRequest rid mb sl)
      | _, _, _ => .error "invalid fields for StartRequest"
    | some (.str "AbortRequest") =>
      match getField fields "request_id", getField fields "reason" with
      | some (.num rid), some (.str reason) => .ok (.AbortRequest rid reason)
      | _, _ => .error "invalid fields for AbortRequest"
    | some (.str "Shutdown") => .ok .Shutdown
    | some (.str "Ping") =>
      match getField fields "seq" with
      | some (.num seq) => .ok (.Ping seq)
      | _ => .error "invalid fields for Ping"
    | some (.str tag) => .error ("unknown variant " ++ tag)
    | _ => .error "missing type tag"
  | _ => .error "expected a JSON object"

/-- `StageMsg::to_bytes`, at the JSON-value level. -/
def StageMsg.toJsonVal : StageMsg → JVal
  | .Ready i => .obj [("type", .str "Ready"), ("stage_idx", .num i)]
  | .DataChannelsReady i => .obj [("type", .str "DataChannelsReady"),
      ("stage_idx", .num i)]
  | .RequestDone rid => .obj [("type", .str "RequestDone"),
      ("request_id", .num rid)]
  | .RequestError rid err => .obj [("type", .str "RequestError"),
      ("request_id", .num rid), ("error", .str err)]
  | .Pong seq => .obj [("type", .str "Pong"), ("seq", .num seq)]
  | .ShuttingDown i => .obj [("type", .str "ShuttingDown"), ("stage_idx", .num i)]

/-- `StageMsg::from_bytes`, at the JSON-value level. -/
def StageMsg.fromJsonVal (j : JVal) : Except String StageMsg :=
  match j with
  | .obj fields =>
    match getField fields "type" with
    | some (.str "Ready") =>
      match getField fields "stage_idx" with
      | some (.num i) => .ok (.Ready i)
      | _ => .error "invalid fields for Ready"
    | some (.str "DataChannelsReady") =>
      match getField fields "stage_idx" with
      | some (.num i) => .ok (.DataChannelsReady i)
      | _ => .error "invalid fields for DataChannelsReady"
    | some (.str "RequestDone") =>
      match getField fields "request_id" with
      | some (.num rid) => .ok (.RequestDone rid)
      | _ => .error "invalid fields for RequestDone"
    | some (.str "RequestError") =>
      match getField fields "request_id", getField fields "error" with
      | some (.num rid), some (.str err) => .ok (.RequestError rid err)
      | _, _ => .error "invalid fields for RequestError"
    | some (.str "Pong") =>
      match getField fields "seq" with
      | some (.num seq) => .ok (.Pong seq)
      | _ => .error "invalid fields for Pong"
    | some (.str "ShuttingDown") =>
      match getField fields "stage_idx" with
      | some (.num i) => .ok (.ShuttingDown i)
      | _ => .error "invalid fields for ShuttingDown"
    | some (.str tag) => .error ("unknown variant " ++ tag)
    | _ => .error "missing type tag"
  | _ => .error "expected a JSON object"

/-- True iff the decode failed. -/
def isErr {ε α : Type _} : Except ε α → Bool
  | .error _ => true
  | .ok _ => false

/-- C4: every control message round-trips exactly through the wire
encoding (`from_bytes ∘ to_bytes = Ok`), the encoding is a function of
the message alone (injectivity pins each message to distinct bytes),
and an unknown tag or malformed document decodes to an error. -/
theorem protocol_roundtrip_exact :
    (∀ x : OrchestratorMsg, OrchestratorMsg.fromJsonVal x.toJsonVal = .ok x) ∧
    (∀ y : StageMsg, StageMsg.fromJsonVal y.toJsonVal = .ok y) ∧
    (∀ x₁ x₂ : OrchestratorMsg, x₁.toJsonVal = x₂.toJsonVal → x₁ = x₂) ∧
    (∀ y₁ y₂ : StageMsg, y₁.toJsonVal = y₂.toJsonVal → y₁ = y₂) ∧
    isErr (OrchestratorMsg.fromJsonVal
      (.obj [("type", .str "Unknown")])) = true ∧
    isErr (StageMsg.fromJsonVal (.obj [("type", .str "Unknown")])) = true ∧
    isErr (OrchestratorMsg.fromJsonVal (.str "not json")) = true ∧
    isErr (StageMsg.fromJsonVal (.num 0)) = true := by
  have ho : ∀ x : OrchestratorMsg,
      OrchestratorMsg.fromJsonVal x.toJsonVal = .ok x := by
    intro x; cases x <;> rfl
  have hs : ∀ y : StageMsg, StageMsg.fromJsonVal y.toJsonVal = .ok y := by
    intro y; cases y <;> rfl
  refine ⟨ho, hs, ?_, ?_, rfl, rfl, rfl, rfl⟩
  · intro x₁ x₂ h
    have := congrArg OrchestratorMsg.fromJsonVal h
    rw [ho x₁, ho x₂] at this
    exact Except.ok.inj this
  · intro y₁ y₂ h
    have := congrArg StageMsg.fromJsonVal h
    rw [hs y₁, hs y₂] at this
    exact Except.ok.inj this

/-- Witness for C4: the injectivity components applied at concrete
messages. -/
theorem protocol_roundtrip_witness :
    OrchestratorMsg.Ping 1 = OrchestratorMsg.Ping 1 ∧
    StageMsg.Pong 2 = StageMsg.Pong 2 :=
  ⟨protocol_roundtrip_exact.2.2.1 (.Ping 1) (.Ping 1) rfl,
   protocol_roundtrip_exact.2.2.2.1 (.Pong 2) (.Pong 2) rfl⟩

/-! ### Manifest JSON parsing (src/manifest.rs:67-73)

`ShardManifest::from_json` is `serde_json::from_str` followed by
`validate()`.  None of the manifest structs carry
`#[serde(deny_unknown_fields)]`, so the derived deserializers look up
the declared fields by name and ignore everything else; that serde
behaviour is embedded here at the JSON-value level. -/

/-- Derived deserializer for `PortSpec` (`#[serde(tag = "type")]`,
variants renamed `"tcp"` / `"vsock"`). -/
def decodePortSpec (j : JVal) : Except String PortSpec :=
  match j with
  | .obj fields =>
    match getField fields "type" with
    | some (.str "tcp") =>
      match getField fields "addr" with
      | some (.str addr) => .ok (.Tcp addr)
      | _ => .error "invalid fields for tcp"
    | some (.str "vsock") =>
      match getField fields "cid", getField fields "port" with
      | some (.num cid), some (.num port) => .ok (.VSock cid port)
      | _, _ => .error "invalid fields for vsock"
    | some (.str tag) => .error ("unknown port type " ++ tag)
    | _ => .error "missing port type tag"
  | _ => .error "expected a JSON object"

/-- Derived deserializer for `StageEndpoint`. -/
def decodeEndpoint (j : JVal) : Except String StageEndpoint :=
  match j with
  | .obj fields =>
    match getField fields "control", getField fields "data_in",
        getField fields "data_out" with
    | some jc, some ji, some jo => do
      let control ← decodePortSpec jc
      let data_in ← decodePortSpec ji
      let data_out ← decodePortSpec jo
      .ok { control := control, data_in := data_in, data_out := data_out }
    | _, _, _ => .error "missing endpoint field"
  | _ => .error "expected a JSON object"

/-- Derived deserializer for `ActivationDType` (unit variants encode as
their names). -/
def decodeDType (j : JVal) : Except String ActivationDType :=
  match j with
  | .str "F32" => .ok .F32
  | .str "F16" => .ok .F16
  | .str "BF16" => .ok .BF16
  | _ => .error "invalid dtype"

/-- Derived deserializer for `ActivationSpec`. -/
def decodeActivationSpec (j : JVal) : Except String ActivationSpec :=
  match j with
  | .obj fields =>
    match getField fields "dtype", getField fields "hidden_dim",
        getField fields "max_seq_len" with
    | some jd, some (.num hd), some (.num msl) => do
      let dtype ← decodeDType jd
      .ok { dtype := dtype, hidden_dim := hd, max_seq_len := msl }
    | _, _, _ => .error "missing activation_spec field"
  | _ => .error "expected a JSON object"

/-- Deserializer for `BTreeMap<usize, String>`: a JSON object whose
keys parse as unsigned integers. -/
def decodeMeasurements : List (String × JVal) → Except String (List (Nat × String))
  | [] => .ok []
  | (k, v) :: rest =>
    match k.toNat?, v with
    | some n, .str s => do
      let ms ← decodeMeasurements rest
      .ok ((n, s) :: ms)
    | _, _ => .error "invalid measurement entry"

/-- Element-wise deserialization of a JSON array. -/
def decodeList {α : Type} (f : JVal → Except String α) :
    List JVal → Except String (List α)
  | [] => .ok []
  | j :: rest => do
    let a ← f j
    let as ← decodeList f rest
    .ok (a :: as)

/-- Derived deserializer for `StageSpec`. -/
def decodeStageSpec (j : JVal) : Except String StageSpec :=
  match j with
  | .obj fields =>
    match getField fields "stage_idx", getField fields "layer_start",
        getField fields "layer_end", getField fields "weight_hashes",
        getField fields "expected_measurements", getField fields "endpoint" with
    | some (.num idx), some (.num ls), some (.num le), some (.arr whs),
        some (.obj ms), some je => do
      let weight_hashes ← decodeList
        (fun w => match w with
          | .str s => .ok s
          | _ => .error "invalid weight hash") whs
      let expected_measurements ← decodeMeasurements ms
      let endpoint ← decodeEndpoint je
      .ok { stage_idx := idx, layer_start := ls, layer_end := le
            weight_hashes := weight_hashes
            expected_measurements := expected_measurements
            endpoint := endpoint }
    | _, _, _, _, _, _ => .error "missing stage field"
  | _ => .error "expected a JSON object"

/-- Derived deserializer for `ShardManifest`. -/
def decodeShardManifest : JVal → Except String ShardManifest
  | .obj fields =>
    match getField fields "model_name", getField fields "model_version",
        getField fields "total_layers", getField fields "stages",
        getField fields "activation_spec" with
    | some (.str name), some (.str ver), some (.num total), some (.arr js),
        some ja => do
      let stages ← decodeList decodeStageSpec js
      let activation_spec ← decodeActivationSpec ja
      .ok { model_name := name, model_version := ver, total_layers := total
            stages := stages, activation_spec := activation_spec }
    | _, _, _, _, _ => .error "missing manifest field"
  | _ => .error "expected a JSON object"

/-- `ShardManifest::from_json` (src/manifest.rs:69-73): deserialize,
then validate. -/
def ShardManifest.from_json (j : JVal) : Except ManifestError ShardManifest :=
  match decodeShardManifest j with
  | .error e => .error (.Json e)
  | .ok man =>
    match man.validate with
    | .ok _ => .ok man
    | .error e => .error e

/-- Appending a field with a fresh name does not change any lookup of
another name. -/
theorem getField_append_singleton (l : List (String × JVal)) (k key : String)
    (v : JVal) (h : key ≠ k) : getField (l ++ [(k, v)]) key = getField l key := by
  induction l with
  | nil =>
    simp only [List.nil_append, getField]
    rw [if_neg (fun hk => h hk.symm)]
  | cons kv rest ih =>
    obtain ⟨k0, v0⟩ := kv
    simp only [List.cons_append, getField]
    by_cases hk : k0 = key
    · rw [if_pos hk, if_pos hk]
    · rw [if_neg hk, if_neg hk]
      exact ih

/-- C8 counterexample: a concrete manifest document carrying unknown
fields in the manifest object, a stage spec, an endpoint and the
activation spec, which `from_json` accepts (the claim says it must be
rejected). -/
theorem manifest_from_json_accepts_unknown_field :
    ShardManifest.from_json (.obj
      [("model_name", .str "m"), ("model_version", .str "1"),
       ("total_layers", .num 2),
       ("stages", .arr
         [.obj [("stage_idx", .num 0), ("layer_start", .num 0),
                ("layer_end", .num 2), ("weight_hashes", .arr []),
                ("expected_measurements", .obj []),
                ("endpoint", .obj
                  [("control", .obj [("type", .str "tcp"),
                                     ("addr", .str "127.0.0.1:9000")]),
                   ("data_in", .obj [("type", .str "tcp"),
                                     ("addr", .str "127.0.0.1:9001")]),
                   ("data_out", .obj [("type", .str "tcp"),
                                      ("addr", .str "127.0.0.1:9002")]),
                   ("bogus_endpoint_field", .num 7)]),
                ("bogus_stage_field", .str "x")]]),
       ("activation_spec", .obj
         [("dtype", .str "F32"), ("hidden_dim", .num 8),
          ("max_seq_len", .num 16), ("bogus_activation_field", .bool true)]),
       ("bogus_manifest_field", .num 42)]) =
    .ok { model_name := "m", model_version := "1", total_layers := 2
          stages :=
            [{ stage_idx := 0, layer_start := 0, layer_end := 2
               weight_hashes := [], expected_measurements := []
               endpoint := { control := .Tcp "127.0.0.1:9000"
                             data_in := .Tcp "127.0.0.1:9001"
                             data_out := .Tcp "127.0.0.1:9002" } }]
          activation_spec := { dtype := .F32, hidden_dim := 8
                               max_seq_len := 16 } } := by
  rfl

/-- C8 amended: the derived deserializer has no
`deny_unknown_fields`, so an extra field of any fresh name appended to
the manifest object is ignored: parsing is unchanged. -/
theorem manifest_from_json_extra_field_ignored
    (fields : List (String × JVal)) (k : String) (v : JVal)
    (h : ¬ k ∈ ["model_name", "model_version", "total_layers", "stages",
      "activation_spec"]) :
    ShardManifest.from_json (.obj (fields ++ [(k, v)])) =
      ShardManifest.from_json (.obj fields) := by
  simp only [List.mem_cons, not_or] at h
  obtain ⟨h1, h2, h3, h4, h5, -⟩ := h
  have hdec : decodeShardManifest (.obj (fields ++ [(k, v)])) =
      decodeShardManifest (.obj fields) := by
    simp only [decodeShardManifest]
    rw [getField_append_singleton _ _ _ _ (Ne.symm h1),
      getField_append_singleton _ _ _ _ (Ne.symm h2),
      getField_append_singleton _ _ _ _ (Ne.symm h3),
      getField_append_singleton _ _ _ _ (Ne.symm h4),
      getField_append_singleton _ _ _ _ (Ne.symm h5)]
  unfold ShardManifest.from_json
  rw [hdec]

/-- Witness for the C8 amended theorem at a concrete document and
field name. -/
theorem manifest_from_json_extra_field_ignored_witness :
    ShardManifest.from_json (.obj
      ([("model_name", .str "m")] ++ [("extra", .num 1)])) =
      ShardManifest.from_json (.obj [("model_name", .str "m")]) :=
  manifest_from_json_extra_field_ignored [("model_name", .str "m")] "extra"
    (.num 1) (by decide)

/-! ### Data-plane messages and the stage process loop (src/stage.rs) -/

/-- A tensor exchanged on a data channel.  The control plane never
parses tensor contents, so the payload is opaque here. -/
structure OwnedTensor where
  name : String
  data : List Nat
deriving DecidableEq

/-- A secure-channel message (`Message` of the transport crate, as the
spec's §6 enumerates it): a typed tensor, opaque bytes, or shutdown.
Byte payloads are modelled as strings, which the two in-band sentinels
are. -/
inductive Message where
  | tensor (t : OwnedTensor)
  | data (payload : String)
  | shutdownMsg
deriving DecidableEq

/-- `ERROR_SENTINEL` (src/stage.rs:15): bytes sent on data_out when a
stage request fails. -/
def ERROR_SENTINEL : String := "ERR"

/-- The end-of-micro-batch sentinel. -/
def END_SENTINEL : String := "END"

/-- Model of the `Display` rendering (`e.to_string()`) a stage embeds
in its `RequestError` report; the claims depend only on its presence,
not its exact text. -/
def PipelineError.toMessage : PipelineError → String
  | .Manifest _ => "manifest error"
  | .Scheduler _ => "scheduler error"
  | .Stage _ => "stage error"
  | .Transport m => "transport error: " ++ m
  | .StageFailed i r => "stage " ++ toString i ++ " failed: " ++ r
  | .RequestFailed rid r =>
    "request " ++ toString rid ++ " failed: " ++ r
  | .Shutdown => "pipeline shutting down"
  | .Io m => "I/O error: " ++ m
  | .Timeout m => "timeout: " ++ m
  | .Tainted => "pipeline tainted after unrecoverable timeout"
  | .Protocol m => "protocol error: " ++ m
  | .Serialization m => "serialization error: " ++ m

/-- Result of the select loop that races `process_request` against the
control channel (src/stage.rs:379-445): either the request future (or
an `AbortRequest`) produced a result, or `Shutdown` arrived mid-request. -/
inductive SelectResult where
  | finished (r : Except PipelineError Unit)
  | earlyShutdown

/-- A send a stage performs while handling one `StartRequest`, in
order: on the control channel or on data_out. -/
inductive StageSend where
  | ctrl (msg : StageMsg)
  | dataOut (payload : String)
deriving DecidableEq

/-- What the process loop does after handling one message. -/
inductive LoopAction where
  | continueLoop
  | exitLoop
deriving DecidableEq

/-- The `StartRequest` arm of `StageRuntime::process_loop`
(src/stage.rs:340-472): the `seq_len` guard first (send `ERR` on
data_out, then `RequestError`, then `continue`); otherwise the select
loop runs and its result is reconciled — `RequestDone` on success,
`ERR` on data_out followed by `RequestError` on failure,
`ShuttingDown` and exit on a mid-request `Shutdown`.  Returns the sends
in the order the code performs them, and whether the loop continues. -/
def handleStartRequest (stage_idx : Nat) (activation_spec : Option ActivationSpec)
    (request_id num_micro_batches seq_len : Nat) (result : SelectResult) :
    List StageSend × LoopAction :=
  let afterRun : List StageSend × LoopAction :=
    match result with
    | .earlyShutdown => ([.ctrl (.ShuttingDown stage_idx)], .exitLoop)
    | .finished (.ok _) => ([.ctrl (.RequestDone request_id)], .continueLoop)
    | .finished (.error e) =>
      ([.dataOut ERROR_SENTINEL,
        .ctrl (.RequestError request_id e.toMessage)], .continueLoop)
  match activation_spec with
  | some spec =>
    if seq_len > spec.max_seq_len then
      ([.dataOut ERROR_SENTINEL,
        .ctrl (.RequestError request_id
          ("seq_len " ++ toString seq_len ++ " exceeds max_seq_len " ++
            toString spec.max_seq_len))], .continueLoop)
    else afterRun
  | none => afterRun

/-- C5: whenever request processing fails during a request (executor
failure, a received `ERR` on data_in, or an abort — any `Err` out of
the select loop), the stage's sends are exactly the `ERR` sentinel on
data_out followed by `RequestError` on control: the sentinel goes out
strictly before the control report. -/
theorem stage_err_sentinel_before_request_error
    (stage_idx : Nat) (activation_spec : Option ActivationSpec)
    (request_id num_micro_batches seq_len : Nat) (e : PipelineError)
    (hvalid : ∀ spec, activation_spec = some spec →
      seq_len ≤ spec.max_seq_len) :
    (handleStartRequest stage_idx activation_spec request_id
        num_micro_batches seq_len (.finished (.error e))).1 =
      [.dataOut ERROR_SENTINEL,
       .ctrl (.RequestError request_id e.toMessage)] ∧
    (∃ i j : Nat, i < j ∧
      (handleStartRequest stage_idx activation_spec request_id
        num_micro_batches seq_len (.finished (.error e))).1[i]? =
          some (StageSend.dataOut ERROR_SENTINEL) ∧
      (handleStartRequest stage_idx activation_spec request_id
        num_micro_batches seq_len (.finished (.error e))).1[j]? =
          some (StageSend.ctrl (.RequestError request_id e.toMessage))) := by
  have hsends : (handleStartRequest stage_idx activation_spec request_id
      num_micro_batches seq_len (.finished (.error e))).1 =
      [.dataOut ERROR_SENTINEL,
       .ctrl (.RequestError request_id e.toMessage)] := by
    unfold handleStartRequest
    match activation_spec with
    | none => rfl
    | some spec =>
      have := hvalid spec rfl
      simp only
      rw [if_neg (by omega)]
  refine ⟨hsends, 0, 1, by omega, ?_, ?_⟩ <;> rw [hsends] <;> rfl

/-- Witness for C5 at a concrete stage and error. -/
theorem stage_err_sentinel_before_request_error_witness :
    (handleStartRequest 1
        (some { dtype := .F32, hidden_dim := 8, max_seq_len := 16 })
        7 2 8 (.finished (.error (.Stage .ChannelClosed)))).1 =
      [.dataOut ERROR_SENTINEL,
       .ctrl (.RequestError 7 (PipelineError.Stage .ChannelClosed).toMessage)] ∧
    (∃ i j : Nat, i < j ∧
      (handleStartRequest 1
        (some { dtype := .F32, hidden_dim := 8, max_seq_len := 16 })
        7 2 8 (.finished (.error (.Stage .ChannelClosed)))).1[i]? =
          some (StageSend.dataOut ERROR_SENTINEL) ∧
      (handleStartRequest 1
        (some { dtype := .F32, hidden_dim := 8, max_seq_len := 16 })
        7 2 8 (.finished (.error (.Stage .ChannelClosed)))).1[j]? =
          some (StageSend.ctrl (.RequestError 7
            (PipelineError.Stage .ChannelClosed).toMessage))) :=
  stage_err_sentinel_before_request_error 1
    (some { dtype := .F32, hidden_dim := 8, max_seq_len := 16 }) 7 2 8
    (.Stage .ChannelClosed) (by intro spec hspec; cases hspec; decide)

/-- C6: a `StartRequest` whose `seq_len` exceeds
`activation_spec.max_seq_len` makes the stage send the `ERR` sentinel
on data_out and then a `RequestError` carrying that `request_id` on
control, and the process loop continues (the stage keeps serving). -/
theorem stage_seq_len_rejected_continues
    (stage_idx : Nat) (spec : ActivationSpec)
    (request_id num_micro_batches seq_len : Nat) (result : SelectResult)
    (hover : seq_len > spec.max_seq_len) :
    handleStartRequest stage_idx (some spec) request_id num_micro_batches
        seq_len result =
      ([.dataOut ERROR_SENTINEL,
        .ctrl (.RequestError request_id
          ("seq_len " ++ toString seq_len ++ " exceeds max_seq_len " ++
            toString spec.max_seq_len))], .continueLoop) := by
  unfold handleStartRequest
  simp only
  rw [if_pos hover]

/-- Witness for C6 at `seq_len = 32`, `max_seq_len = 16`. -/
theorem stage_seq_len_rejected_continues_witness :
    handleStartRequest 0
        (some { dtype := .F32, hidden_dim := 8, max_seq_len := 16 })
        9 4 32 (.finished (.ok ())) =
      ([.dataOut ERROR_SENTINEL,
        .ctrl (.RequestError 9
          ("seq_len " ++ toString 32 ++ " exceeds max_seq_len " ++
            toString 16))], .continueLoop) :=
  stage_seq_len_rejected_continues 0
    { dtype := .F32, hidden_dim := 8, max_seq_len := 16 } 9 4 32
    (.finished (.ok ())) (by decide)

/-! ### Orchestrator data path (src/orchestrator.rs)

Channels are embedded as scripted message queues: a `recv` consumes the
head of the queue, and a `recv` on an exhausted script is the transport
error a closed channel produces.  Every send and receive the
orchestrator performs is recorded as an `OrchEvent`, in program order. -/

/-- Handle to a connected stage (`StageHandle` in src/orchestrator.rs),
with its control channel's pending inbound messages. -/
structure StageHandleM where
  stage_idx : Nat
  inbox : List StageMsg

/-- The orchestrator's channel state: per-stage control handles, and
the optional data channels (`data_in` presence; `data_out` with its
pending inbound messages). -/
structure OrchModel where
  stages : List StageHandleM
  data_in : Option Unit
  data_out : Option (List Message)

/-- One channel interaction performed by the orchestrator. -/
inductive OrchEvent where
  | ctrlSend (stage_idx : Nat) (msg : OrchestratorMsg)
  | ctrlRecv (stage_idx : Nat) (msg : StageMsg)
  | dataSendTensor (t : OwnedTensor)
  | dataSendEnd
  | dataRecv (msg : Message)
deriving DecidableEq

/-- Result of an inference request (`InferenceResult` in
src/orchestrator.rs). -/
structure InferenceResult where
  outputs : List (List OwnedTensor)
deriving DecidableEq

/-- `recv_output_tensors` (src/orchestrator.rs:520-544): read from
data_out until the `END` sentinel; the `ERR` sentinel yields
`StageFailed` (with the hardcoded `stage_idx: 0`), `Shutdown` yields
`Shutdown`, anything else is a protocol error.  Also returns the
unconsumed remainder of the queue. -/
def recv_output_tensors :
    List Message → Except PipelineError (List OwnedTensor) × List Message
  | [] => (.error (.Transport "channel closed"), [])
  | .tensor t :: rest =>
    match recv_output_tensors rest with
    | (.ok ts, q) => (.ok (t :: ts), q)
    | (.error e, q) => (.error e, q)
  | .data payload :: rest =>
    if payload = END_SENTINEL then (.ok [], rest)
    else if payload = ERROR_SENTINEL then
      (.error (.StageFailed 0 "stage reported error on data channel"), rest)
    else (.error (.Protocol "unexpected message on data_out"), rest)
  | .shutdownMsg :: rest => (.error .Shutdown, rest)

/-- `receive_all_outputs` (src/orchestrator.rs:490-501): one
micro-batch at a time, stopping at the first error. -/
def receive_all_outputs :
    Nat → List Message → Except PipelineError (List (List OwnedTensor)) × List Message
  | 0, q => (.ok [], q)
  | n + 1, q =>
    match recv_output_tensors q with
    | (.ok ts, q2) =>
      match receive_all_outputs n q2 with
      | (.ok rest, q3) => (.ok (ts :: rest), q3)
      | (.error e, q3) => (.error e, q3)
    | (.error e, q2) => (.error e, q2)

/-- The success path of `infer_inner` (src/orchestrator.rs:352-380):
collect one `RequestDone` (or a matching `RequestError`, promoted to
`RequestFailed`) per stage in order; anything else is a protocol
error. -/
def collectDone (request_id : Nat) : List StageHandleM →
    Except PipelineError Unit × List OrchEvent
  | [] => (.ok (), [])
  | h :: rest =>
    match h.inbox with
    | [] => (.error (.Transport "channel closed"), [])
    | msg :: _ =>
      let ev := OrchEvent.ctrlRecv h.stage_idx msg
      match msg with
      | .RequestDone rid =>
        if rid = request_id then
          match collectDone request_id rest with
          | (r, evs) => (r, ev :: evs)
        else (.error (.Protocol "unexpected control message"), [ev])
      | .RequestError rid err =>
        if rid = request_id then
          (.error (.RequestFailed request_id
            ("stage " ++ toString h.stage_idx ++ " error: " ++ err)), [ev])
        else (.error (.Protocol "unexpected control message"), [ev])
      | _ => (.error (.Protocol "unexpected control message"), [ev])

/-- The `StageFailed` recovery path of `infer_inner`
(src/orchestrator.rs:381-403): read one control message per stage,
promote the first `RequestError` matching this request; other messages
are skipped silently. -/
def scanErrors (request_id : Nat) : List StageHandleM →
    Except PipelineError Unit × List OrchEvent
  | [] => (.ok (), [])
  | h :: rest =>
    match h.inbox with
    | [] => (.error (.Transport "channel closed"), [])
    | msg :: _ =>
      let ev := OrchEvent.ctrlRecv h.stage_idx msg
      match msg with
      | .RequestError rid err =>
        if rid = request_id then
          (.error (.RequestFailed request_id
            ("stage " ++ toString h.stage_idx ++ " error: " ++ err)), [ev])
        else
          match scanErrors request_id rest with
          | (r, evs) => (r, ev :: evs)
      | _ =>
        match scanErrors request_id rest with
        | (r, evs) => (r, ev :: evs)

/-- `Orchestrator::infer_inner` (src/orchestrator.rs:290-406).  The
request id is passed in (the code mints it from the clock).  `m = 0`
returns empty immediately — before the data channels are unwrapped and
before any `StartRequest` is sent.  Otherwise: `StartRequest` to every
stage, push every micro-batch (tensors then `END`) into data_in,
receive `m` micro-batches from data_out, then reconcile with the
control channels. -/
def infer_inner (st : OrchModel) (request_id : Nat)
    (input_tensors : List (List OwnedTensor)) (seq_len : Nat) :
    Except PipelineError InferenceResult × List OrchEvent :=
  let num_micro_batches := input_tensors.length
  if num_micro_batches = 0 then (.ok { outputs := [] }, [])
  else
    match st.data_in, st.data_out with
    | none, _ => (.error (.Protocol "data channels not established"), [])
    | some _, none => (.error (.Protocol "data channels not established"), [])
    | some _, some outQueue =>
      let startEvents := st.stages.map fun h =>
        OrchEvent.ctrlSend h.stage_idx
          (.StartRequest request_id num_micro_batches seq_len)
      let dataEvents := input_tensors.flatMap fun mb =>
        mb.map OrchEvent.dataSendTensor ++ [OrchEvent.dataSendEnd]
      match receive_all_outputs num_micro_batches outQueue with
      | (.ok outputs, rest) =>
        let recvEvents :=
          (outQueue.take (outQueue.length - rest.length)).map OrchEvent.dataRecv
        match collectDone request_id st.stages with
        | (.ok _, ctrlEvents) =>
          (.ok { outputs := outputs },
           startEvents ++ dataEvents ++ recvEvents ++ ctrlEvents)
        | (.error e, ctrlEvents) =>
          (.error e, startEvents ++ dataEvents ++ recvEvents ++ ctrlEvents)
      | (.error e, rest) =>
        let recvEvents :=
          (outQueue.take (outQueue.length - rest.length)).map OrchEvent.dataRecv
        match e with
        | .StageFailed _ _ =>
          match scanErrors request_id st.stages with
          | (.error e2, ctrlEvents) =>
            (.error e2, startEvents ++ dataEvents ++ recvEvents ++ ctrlEvents)
          | (.ok _, ctrlEvents) =>
            (.error (.RequestFailed request_id
              "stage failed (no error details on control channel)"),
             startEvents ++ dataEvents ++ recvEvents ++ ctrlEvents)
        | _ => (.error e, startEvents ++ dataEvents ++ recvEvents)

/-- C9: `infer` with an empty `input_tensors` list returns `Ok` with
empty outputs and performs no channel interaction at all — for every
channel state (even unestablished data channels, since the empty check
precedes the unwrap) and every `seq_len`. -/
theorem infer_empty_input_no_io (st : OrchModel) (request_id seq_len : Nat) :
    infer_inner st request_id [] seq_len = (.ok { outputs := [] }, []) :=
  rfl

/-- C10: every `StageFailed` error out of the data-out reader carries
`stage_idx = 0`, whichever stage actually emitted the `ERR` sentinel
(the reader hardcodes 0; the true index is only recoverable from the
control-channel `RequestError` that follows). -/
theorem recv_output_tensors_stage_failed_idx_zero
    (q : List Message) (idx : Nat) (reason : String)
    (h : (recv_output_tensors q).1 = .error (.StageFailed idx reason)) :
    idx = 0 := by
  induction q with
  | nil => exact absurd h (by simp [recv_output_tensors])
  | cons msg rest ih =>
    cases msg with
    | tensor t =>
      unfold recv_output_tensors at h
      revert h
      match hrec : recv_output_tensors rest with
      | (.ok ts, q2) => intro h; exact absurd h (by simp)
      | (.error e, q2) =>
        intro h
        simp only at h
        apply ih
        rw [hrec]
        exact h
    | data payload =>
      unfold recv_output_tensors at h
      by_cases hend : payload = END_SENTINEL
      · rw [if_pos hend] at h; exact absurd h (by simp)
      · rw [if_neg hend] at h
        by_cases herr : payload = ERROR_SENTINEL
        · rw [if_pos herr] at h
          simp only [Prod.fst] at h
          injection h with h2
          injection h2 with h3 h4
          omega
        · rw [if_neg herr] at h; exact absurd h (by simp)
    | shutdownMsg =>
      unfold recv_output_tensors at h
      exact absurd h (by simp)

/-- Witness for C10: a queue whose stage-failure comes from the `ERR`
sentinel emitted after one tensor. -/
theorem recv_output_tensors_stage_failed_idx_zero_witness : (0 : Nat) = 0 :=
  recv_output_tensors_stage_failed_idx_zero
    [.tensor { name := "x", data := [1, 2] }, .data "ERR"] 0
    "stage reported error on data channel" rfl

/-! ### Health check (src/orchestrator.rs:418-451) -/

/-- Variant name of a stage message, standing in for the `Debug`
rendering the code interpolates into its error reason. -/
def stageMsgVariant : StageMsg → String
  | .Ready _ => "Ready"
  | .DataChannelsReady _ => "DataChannelsReady"
  | .RequestDone _ => "RequestDone"
  | .RequestError _ _ => "RequestError"
  | .Pong _ => "Pong"
  | .ShuttingDown _ => "ShuttingDown"

/-- The read loop of `Orchestrator::health_check_inner`
(src/orchestrator.rs:429-442): after pinging every stage, read exactly
one control message per stage; a `Pong` with the matching `seq`
passes, anything else — including a stale `RequestDone` or
`RequestError` from an earlier request — is immediately fatal with
`StageFailed`. -/
def health_check_reads (seq : Nat) : List StageHandleM → Except PipelineError Unit
  | [] => .ok ()
  | h :: rest =>
    match h.inbox with
    | [] => .error (.Transport "channel closed")
    | msg :: _ =>
      match msg with
      | .Pong s =>
        if s = seq then health_check_reads seq rest
        else .error (.StageFailed h.stage_idx
          ("expected Pong, got " ++ stageMsgVariant msg))
      | _ => .error (.StageFailed h.stage_idx
          ("expected Pong, got " ++ stageMsgVariant msg))

/-- C7 (code bug): the health-check reader is not tolerant.  At the
failing input — a stage whose control channel still holds a stale
`RequestError` from a previously drained request ahead of the matching
`Pong` — the code fails with `StageFailed` instead of skipping to the
`Pong` as the claim (and tests/timeout_test.rs:238-262) require. -/
theorem health_check_reader_fatal_on_stale :
    health_check_reads 5
      [{ stage_idx := 0,
         inbox := [.RequestError 7 "executor failure", .Pong 5] }] =
      .error (.StageFailed 0 "expected Pong, got RequestError") :=
  rfl

/-! ### Timeout recovery and taint (C3)

Modelled from the spec: the drain/taint machinery of the orchestrator
(`is_tainted`, `stage_drain_timeout` / `data_drain_timeout` /
`data_quiet_period`, the post-timeout drain) is exercised by
tests/timeout_test.rs and declared in src/error.rs (`Tainted`), but its
implementation is not among the sources; §4.6, §3 and the design notes
of the spec define it, and it is embedded from those words below. -/

/-- Modelled from the spec: the single taint boolean on the
orchestrator, set once and never cleared (design notes). -/
structure TaintState where
  tainted : Bool
deriving DecidableEq

/-- Modelled from the spec: whether each half of the post-timeout drain
exceeded its outer bound (`stage_drain_timeout` for the per-stage
control drain, `data_drain_timeout` for the data-out drain). -/
structure DrainOutcome where
  control_drain_exceeded : Bool
  data_drain_exceeded : Bool
deriving DecidableEq

/-- Modelled from the spec: how one `infer` call resolves — the inner
future completes within `infer_timeout`, or it times out and the drain
runs with the given outcome. -/
inductive InferProgress where
  | completes (r : Except PipelineError InferenceResult)
  | timesOut (d : DrainOutcome)

/-- Modelled from the spec: the drain sends `AbortRequest` to each
stage in index order (§4.6, infer-timeout failure case). -/
def drainAborts (num_stages request_id : Nat) : List OrchEvent :=
  (List.range num_stages).map fun i =>
    .ctrlSend i (.AbortRequest request_id "inference timed out")

/-- Modelled from the spec: `Orchestrator::infer` with the recovery
state machine.  A tainted pipeline fails fast with `Tainted` and does
nothing.  On timeout the drain runs: `AbortRequest` to each stage,
data-out traffic discarded; if any drain exceeded its outer bound the
pipeline is marked tainted; the call returns `Timeout` either way. -/
def inferWithRecovery (num_stages request_id : Nat) (st : TaintState)
    (p : InferProgress) :
    Except PipelineError InferenceResult × TaintState × List OrchEvent :=
  if st.tainted then (.error .Tainted, st, [])
  else
    match p with
    | .completes r => (r, st, [])
    | .timesOut d =>
      if d.control_drain_exceeded || d.data_drain_exceeded then
        (.error (.Timeout "inference timed out"), { tainted := true },
         drainAborts num_stages request_id)
      else
        (.error (.Timeout "inference timed out"), st,
         drainAborts num_stages request_id)

/-- Modelled from the spec: `health_check` checks the taint flag first
and fails fast with `Tainted`; otherwise it behaves as its inner
body. -/
def healthCheckWithTaint (st : TaintState)
    (inner : Except PipelineError Unit) :
    Except PipelineError Unit × TaintState :=
  if st.tainted then (.error .Tainted, st) else (inner, st)

/-- C3: on an `infer` timeout the orchestrator drains (sending
`AbortRequest` to each stage); if any drain exceeds its outer bound the
pipeline becomes tainted, and once tainted every subsequent `infer` or
`health_check` fails fast with `Tainted` (and the flag never clears,
so `Tainted` is terminal). -/
theorem orchestrator_taint_fail_fast :
    (∀ (n rid : Nat) (st : TaintState) (p : InferProgress),
      st.tainted = true →
      inferWithRecovery n rid st p = (.error .Tainted, st, [])) ∧
    (∀ (st : TaintState) (inner : Except PipelineError Unit),
      st.tainted = true →
      healthCheckWithTaint st inner = (.error .Tainted, st)) ∧
    (∀ (n rid : Nat) (st : TaintState) (d : DrainOutcome),
      st.tainted = false →
      (d.control_drain_exceeded || d.data_drain_exceeded) = true →
      inferWithRecovery n rid st (.timesOut d) =
        (.error (.Timeout "inference timed out"), { tainted := true },
         drainAborts n rid)) ∧
    (∀ (n rid : Nat) (st : TaintState) (d : DrainOutcome),
      st.tainted = false →
      (d.control_drain_exceeded || d.data_drain_exceeded) = false →
      inferWithRecovery n rid st (.timesOut d) =
        (.error (.Timeout "inference timed out"), st, drainAborts n rid)) ∧
    (∀ (n rid : Nat) (st : TaintState) (p : InferProgress),
      st.tainted = true → (inferWithRecovery n rid st p).2.1.tainted = true) ∧
    (∀ (n rid i : Nat), i < n →
      (drainAborts n rid)[i]? =
        some (.ctrlSend i (.AbortRequest rid "inference timed out"))) := by
  refine ⟨?_, ?_, ?_, ?_, ?_, ?_⟩
  · intro n rid st p h; simp [inferWithRecovery, h]
  · intro st inner h; simp [healthCheckWithTaint, h]
  · intro n rid st d h hd; simp [inferWithRecovery, h, hd]
  · intro n rid st d h hd; simp [inferWithRecovery, h, hd]
  · intro n rid st p h; simp [inferWithRecovery, h]
  · intro n rid i hi
    simp [drainAborts, List.getElem?_map, List.getElem?_range hi]

/-- Witness for C3 at a tainted and an untainted concrete state. -/
theorem orchestrator_taint_fail_fast_witness :
    inferWithRecovery 2 1 { tainted := true }
        (.completes (.ok { outputs := [] })) =
      (.error .Tainted, { tainted := true }, []) ∧
    healthCheckWithTaint { tainted := true } (.ok ()) =
      (.error .Tainted, { tainted := true }) ∧
    inferWithRecovery 2 1 { tainted := false }
        (.timesOut { control_drain_exceeded := true
                     data_drain_exceeded := false }) =
      (.error (.Timeout "inference timed out"), { tainted := true },
       drainAborts 2 1) ∧
    (drainAborts 2 1)[1]? =
      some (.ctrlSend 1 (.AbortRequest 1 "inference timed out")) :=
  ⟨orchestrator_taint_fail_fast.1 2 1 _ _ rfl,
   orchestrator_taint_fail_fast.2.1 _ _ rfl,
   orchestrator_taint_fail_fast.2.2.1 2 1 _ _ rfl rfl,
   orchestrator_taint_fail_fast.2.2.2.2.2 2 1 1 (by decide)⟩

end Pipeline
